import Mathlib

/-!
Verification of the 8pool repository physics core.

The repository contains two generations of the engine:

* an event-driven draft (`ball.py`, `paddle.py`, `run_ball.py` at the top
  level), whose `Ball` carries a collision `count`, canvas half-extents and a
  mass derived from the radius; and
* the pool game proper (`src/ball.py`, `src/config.py`, `src/poolsim.py`,
  `src/physic.py`), whose `Ball` has fixed radius and mass taken from
  `config.py` and resolves collisions with a restitution-coefficient impulse.

The draft ball is embedded as `BallP`, the pool-game ball as `BallS`.
Real numbers model Python floats; `Option`/`none` models `math.inf`
(for the time-to-hit predicates) and a raised exception (for the
collision pass, where `none` marks the `ZeroDivisionError` path).
-/

/- Constants from `src/config.py`. -/

def GRAVITY : ℝ := 9.8

def SLIDING_FRICTION_COEF : ℝ := 0.2

def BALL_BALL_RESTITUTION : ℝ := 0.96

def BALL_RAIL_RESTITUTION : ℝ := 0.75

def BALL_MASS : ℝ := 0.17

def BALL_RADIUS : ℝ := 12

def MIN_SPEED_PX_S : ℝ := 0.1

/-- Pool-game ball (`src/ball.py`): the `_physics` dict holds position
`[x, y]` and velocity `[vx, vy]`; number, color and the turtle handle play no
part in the physics and are omitted. -/
structure BallS where
  x : ℝ
  y : ℝ
  vx : ℝ
  vy : ℝ

/-- The `size` property of `src/ball.py` returns the constant `BALL_RADIUS`. -/
def BallS.size (_ : BallS) : ℝ := BALL_RADIUS

/-- The `mass` property of `src/ball.py` returns the constant `BALL_MASS`. -/
def BallS.mass (_ : BallS) : ℝ := BALL_MASS

/-- `Ball.distance` of `src/ball.py`:
`math.sqrt((other.y - self.y) ** 2 + (other.x - self.x) ** 2)`. -/
noncomputable def BallS.distance (a b : BallS) : ℝ :=
  Real.sqrt ((b.y - a.y) ^ 2 + (b.x - a.x) ^ 2)

/-- `Ball._speed` of `src/ball.py`: `math.sqrt(self.vx**2 + self.vy**2)`. -/
noncomputable def BallS.speed (b : BallS) : ℝ :=
  Real.sqrt (b.vx ^ 2 + b.vy ^ 2)

/-- The normal relative velocity `vn = dvx * nx + dvy * ny` computed inside
`Ball.bounce_off` of `src/ball.py`, with `nx = dx / dist`, `ny = dy / dist`. -/
noncomputable def BallS.bounce_vn (a b : BallS) : ℝ :=
  (b.vx - a.vx) * ((b.x - a.x) / BallS.distance a b) +
    (b.vy - a.vy) * ((b.y - a.y) / BallS.distance a b)

/-- `Ball.bounce_off` of `src/ball.py` (restitution impulse).  Returns the
updated pair `(self, other)`.  The source returns early (no mutation) when
`dist == 0` and when `vn > 0`. -/
noncomputable def BallS.bounce_off (a b : BallS) : BallS × BallS :=
  let dist := BallS.distance a b
  if dist = 0 then (a, b)
  else
    let nx := (b.x - a.x) / dist
    let ny := (b.y - a.y) / dist
    let vn := (b.vx - a.vx) * nx + (b.vy - a.vy) * ny
    if vn > 0 then (a, b)
    else
      let e := BALL_BALL_RESTITUTION
      let impulse := -(1 + e) * vn / (1 / BallS.mass a + 1 / BallS.mass b)
      ({ a with vx := a.vx - impulse * nx / BallS.mass a,
                vy := a.vy - impulse * ny / BallS.mass a },
       { b with vx := b.vx + impulse * nx / BallS.mass b,
                vy := b.vy + impulse * ny / BallS.mass b })

/-- `Ball.move` of `src/ball.py`: frictional deceleration of fixed magnitude
`(1 + mu) * m * g / m` opposing the velocity direction, a snap to zero when the
decelerated speed falls below `MIN_SPEED_PX_S`, then the position update with
the resulting velocity. -/
noncomputable def BallS.move (b : BallS) (dt : ℝ) : BallS :=
  let friction_force := (1 + SLIDING_FRICTION_COEF) * BallS.mass b * GRAVITY
  let v :=
    if BallS.speed b > 0 then
      let dx := b.vx / BallS.speed b
      let dy := b.vy / BallS.speed b
      let ax := -(friction_force / BallS.mass b) * dx
      let ay := -(friction_force / BallS.mass b) * dy
      let vx1 := b.vx + ax * dt
      let vy1 := b.vy + ay * dt
      if Real.sqrt (vx1 ^ 2 + vy1 ^ 2) < MIN_SPEED_PX_S then ((0 : ℝ), (0 : ℝ))
      else (vx1, vy1)
    else ((0 : ℝ), (0 : ℝ))
  { x := b.x + v.1 * dt, y := b.y + v.2 * dt, vx := v.1, vy := v.2 }

/-- `Ball.bounce_off_horizontal_rail` of `src/ball.py`: clamp `x` to the rail
and reflect `vx` scaled by the rail restitution when the ball crosses either
vertical boundary. -/
noncomputable def BallS.bounce_off_horizontal_rail (b : BallS) (canvas_width : ℝ) : BallS :=
  if b.x - BALL_RADIUS < -canvas_width then
    { b with x := -canvas_width + BALL_RADIUS, vx := -BALL_RAIL_RESTITUTION * b.vx }
  else if b.x + BALL_RADIUS > canvas_width then
    { b with x := canvas_width - BALL_RADIUS, vx := -BALL_RAIL_RESTITUTION * b.vx }
  else b

/-- `Ball.bounce_off_vertical_rail` of `src/ball.py`: the same along `y`. -/
noncomputable def BallS.bounce_off_vertical_rail (b : BallS) (canvas_height : ℝ) : BallS :=
  if b.y - BALL_RADIUS < -canvas_height then
    { b with y := -canvas_height + BALL_RADIUS, vy := -BALL_RAIL_RESTITUTION * b.vy }
  else if b.y + BALL_RADIUS > canvas_height then
    { b with y := canvas_height - BALL_RADIUS, vy := -BALL_RAIL_RESTITUTION * b.vy }
  else b

/-- The de-penetration block of `check_ball_collisions`
(`src/poolsim.py` lines 226-232 and `physic.py` lines 117-123): push the two
balls apart along the contact normal by half the overlap each. -/
noncomputable def overlapCorrection (b1 b2 : BallS) : BallS × BallS :=
  let dx := b2.x - b1.x
  let dy := b2.y - b1.y
  let dist := Real.sqrt (dx ^ 2 + dy ^ 2)
  let overlap := (BallS.size b1 + BallS.size b2) - dist
  let nx := dx / dist
  let ny := dy / dist
  ({ b1 with x := b1.x - nx * (overlap / 2), y := b1.y - ny * (overlap / 2) },
   { b2 with x := b2.x + nx * (overlap / 2), y := b2.y + ny * (overlap / 2) })

/-- One iteration of the inner loop of `check_ball_collisions`
(`src/poolsim.py` lines 219-232): when the pair is closer than the radius sum,
bounce, then divide by `dist` to build the contact normal.  The Python
division `dx / dist` raises `ZeroDivisionError` when `dist == 0`, modelled by
`none`; `bounce_off` leaves positions untouched, so `overlapCorrection`
recomputes the same `dx`, `dy`, `dist` the source reuses. -/
noncomputable def collidePair (b1 b2 : BallS) : Option (BallS × BallS) :=
  let dx := b2.x - b1.x
  let dy := b2.y - b1.y
  let dist := Real.sqrt (dx ^ 2 + dy ^ 2)
  if dist < BallS.size b1 + BallS.size b2 then
    let p := BallS.bounce_off b1 b2
    if dist = 0 then none
    else some (overlapCorrection p.1 p.2)
  else some (b1, b2)

/-- The index pairs `(i, j)` with `i < j < n` visited by the two nested loops
of `check_ball_collisions`, in loop order. -/
def pairIndices (n : ℕ) : List (ℕ × ℕ) :=
  (List.range n).flatMap fun i => ((List.range n).drop (i + 1)).map fun j => (i, j)

/-- Sequentially process index pairs, threading the updated ball list, and
propagating the exception (`none`) of any pair step. -/
noncomputable def runPairs : List BallS → List (ℕ × ℕ) → Option (List BallS)
  | balls, [] => some balls
  | balls, (i, j) :: rest =>
    match balls[i]?, balls[j]? with
    | some b1, some b2 =>
      match collidePair b1 b2 with
      | none => none
      | some (c1, c2) => runPairs ((balls.set i c1).set j c2) rest
    | _, _ => none

/-- `check_ball_collisions` of `src/poolsim.py` (same body in `physic.py`):
the pairwise collision-and-overlap-correction pass over the ball list. -/
noncomputable def check_ball_collisions (balls : List BallS) : Option (List BallS) :=
  runPairs balls (pairIndices balls.length)

/- ----------------------------------------------------------------- -/
/- Event-driven draft (`ball.py`, `paddle.py` at the repository root). -/

/-- Draft ball (`ball.py`): radius `size`, pose, velocity, the mass set by
`__init__` to `100 * size ** 2`, the collision counter `count`, and the canvas
half-extents captured at construction.  Color and id play no part here. -/
structure BallP where
  size : ℝ
  x : ℝ
  y : ℝ
  vx : ℝ
  vy : ℝ
  mass : ℝ
  count : ℕ
  canvas_width : ℝ
  canvas_height : ℝ

/-- `Ball.__init__` of `ball.py`: mass is `100 * size ** 2`, `count` starts
at zero. -/
def BallP.init (size x y vx vy cw ch : ℝ) : BallP :=
  { size := size, x := x, y := y, vx := vx, vy := vy,
    mass := 100 * size ^ 2, count := 0, canvas_width := cw, canvas_height := ch }

/-- Local `dvdr = dx * dvx + dy * dvy` of `Ball.time_to_hit` (`ball.py`). -/
def BallP.tthDvdr (a b : BallP) : ℝ :=
  (b.x - a.x) * (b.vx - a.vx) + (b.y - a.y) * (b.vy - a.vy)

/-- Local `dvdv = dvx * dvx + dvy * dvy` of `Ball.time_to_hit`. -/
def BallP.tthDvdv (a b : BallP) : ℝ :=
  (b.vx - a.vx) * (b.vx - a.vx) + (b.vy - a.vy) * (b.vy - a.vy)

/-- Local `drdr = dx * dx + dy * dy` of `Ball.time_to_hit`. -/
def BallP.tthDrdr (a b : BallP) : ℝ :=
  (b.x - a.x) * (b.x - a.x) + (b.y - a.y) * (b.y - a.y)

/-- Local `sigma = self.size + that.size` of `Ball.time_to_hit`. -/
def BallP.tthSigma (a b : BallP) : ℝ := a.size + b.size

/-- Local discriminant `d = dvdr * dvdr - dvdv * (drdr - sigma * sigma)` of
`Ball.time_to_hit`. -/
def BallP.tthDisc (a b : BallP) : ℝ :=
  BallP.tthDvdr a b * BallP.tthDvdr a b -
    BallP.tthDvdv a b * (BallP.tthDrdr a b - BallP.tthSigma a b * BallP.tthSigma a b)

/-- Local root `t = -(dvdr + math.sqrt(d)) / dvdv` of `Ball.time_to_hit`. -/
noncomputable def BallP.tthT (a b : BallP) : ℝ :=
  -(BallP.tthDvdr a b + Real.sqrt (BallP.tthDisc a b)) / BallP.tthDvdv a b

/-- `Ball.time_to_hit` of `ball.py`; `none` is `math.inf`.  The guard
`self is that` compares object identity in the source, and the claims only
concern pairs of distinct balls, so it is dropped here. -/
noncomputable def BallP.time_to_hit (a b : BallP) : Option ℝ :=
  if BallP.tthDvdr a b > 0 then none
  else if BallP.tthDvdv a b = 0 then none
  else if BallP.tthDisc a b < 0 then none
  else if BallP.tthT a b ≤ 0 then none
  else some (BallP.tthT a b)

/-- `Ball.time_to_hit_vertical_wall` of `ball.py`; `none` is `math.inf`. -/
noncomputable def BallP.time_to_hit_vertical_wall (b : BallP) : Option ℝ :=
  if b.vx = 0 then none
  else
    let dt := if b.vx > 0 then (b.canvas_width - b.size - b.x) / b.vx
              else (-b.canvas_width + b.size - b.x) / b.vx
    if dt > 0 then some dt else none

/-- `Ball.bounce_off` of `ball.py`: the elastic two-body impulse, with
`dist = self.size + that.size`, incrementing both collision counters. -/
noncomputable def BallP.bounce_off (a b : BallP) : BallP × BallP :=
  let dx := b.x - a.x
  let dy := b.y - a.y
  let dvx := b.vx - a.vx
  let dvy := b.vy - a.vy
  let dvdr := dx * dvx + dy * dvy
  let dist := a.size + b.size
  let magnitude := 2 * a.mass * b.mass * dvdr / ((a.mass + b.mass) * dist)
  let fx := magnitude * dx / dist
  let fy := magnitude * dy / dist
  ({ a with vx := a.vx + fx / a.mass, vy := a.vy + fy / a.mass, count := a.count + 1 },
   { b with vx := b.vx - fx / b.mass, vy := b.vy - fy / b.mass, count := b.count + 1 })

/-- `Ball.bounce_off_vertical_wall` of `ball.py`: force the ball back inside
the bounds if needed, then reflect `vx` and increment `count`. -/
noncomputable def BallP.bounce_off_vertical_wall (b : BallP) : BallP :=
  let b1 :=
    if b.x + b.size > b.canvas_width then { b with x := b.canvas_width - b.size }
    else if b.x - b.size < -b.canvas_width then { b with x := -b.canvas_width + b.size }
    else b
  { b1 with vx := -b1.vx, count := b1.count + 1 }

/-- `Ball.bounce_off_horizontal_wall` of `ball.py`: the same along `y`. -/
noncomputable def BallP.bounce_off_horizontal_wall (b : BallP) : BallP :=
  let b1 :=
    if b.y + b.size > b.canvas_height then { b with y := b.canvas_height - b.size }
    else if b.y - b.size < -b.canvas_height then { b with y := -b.canvas_height + b.size }
    else b
  { b1 with vy := -b1.vy, count := b1.count + 1 }

/-- `Ball.move` of `ball.py`: straight-line advance with the result clamped to
the canvas bounds. -/
noncomputable def BallP.move (b : BallP) (dt : ℝ) : BallP :=
  let new_x := b.x + b.vx * dt
  let new_y := b.y + b.vy * dt
  { b with
    x := max (min new_x (b.canvas_width - b.size)) (-b.canvas_width + b.size),
    y := max (min new_y (b.canvas_height - b.size)) (-b.canvas_height + b.size) }

/-- Draft paddle (`paddle.py`): width, height and a mutable `[x, y]` center. -/
structure Paddle where
  width : ℝ
  height : ℝ
  location : ℝ × ℝ

/-- `Ball.bounce_off_paddle` of `ball.py`: reflect the dominant-axis velocity
component, rescale the speed by 1.01 when nonzero, increment `count`. -/
noncomputable def BallP.bounce_off_paddle (b : BallP) (p : Paddle) : BallP :=
  let dx := |b.x - p.location.1|
  let dy := |b.y - p.location.2|
  let b1 := if dx * p.height > dy * p.width then { b with vx := -b.vx }
            else { b with vy := -b.vy }
  let speed := Real.sqrt (b1.vx ^ 2 + b1.vy ^ 2)
  let b2 :=
    if speed ≠ 0 then
      { b1 with vx := b1.vx / speed * (speed * 1.01),
                vy := b1.vy / speed * (speed * 1.01) }
    else b1
  { b2 with count := b2.count + 1 }

/- ----------------------------------------------------------------- -/
/- Helper lemmas. -/

/-- Square-root of a sum of squares scales by the absolute value of a common
factor. -/
theorem sqrt_scale (c u v : ℝ) :
    Real.sqrt ((c * u) ^ 2 + (c * v) ^ 2) = |c| * Real.sqrt (u ^ 2 + v ^ 2) := by
  have h : (c * u) ^ 2 + (c * v) ^ 2 = c ^ 2 * (u ^ 2 + v ^ 2) := by ring
  rw [h, Real.sqrt_mul (sq_nonneg c), Real.sqrt_sq_eq_abs]

/-- Evaluate a square root at a perfect square. -/
theorem sqrt_eval {a b : ℝ} (hb : 0 ≤ b) (h : b ^ 2 = a) : Real.sqrt a = b := by
  rw [← h, Real.sqrt_sq hb]

/- ----------------------------------------------------------------- -/
/- Claim C1. -/

/-- Claim C1: for distinct balls, `time_to_hit` returns never (`none`)
whenever `dvdr ≥ 0`, or `dvdv = 0`, or the discriminant is negative;
otherwise it returns `t = -(dvdr + sqrt d) / dvdv` exactly when that value is
strictly positive, and never otherwise. -/
theorem time_to_hit_characterization (a b : BallP) :
    (0 ≤ BallP.tthDvdr a b ∨ BallP.tthDvdv a b = 0 ∨ BallP.tthDisc a b < 0 →
      BallP.time_to_hit a b = none) ∧
    (BallP.tthDvdr a b < 0 → BallP.tthDvdv a b ≠ 0 → 0 ≤ BallP.tthDisc a b →
      BallP.time_to_hit a b =
        if BallP.tthT a b > 0 then some (BallP.tthT a b) else none) := by
  constructor
  · intro h
    by_cases hgt : BallP.tthDvdr a b > 0
    · simp [BallP.time_to_hit, hgt]
    · by_cases h2 : BallP.tthDvdv a b = 0
      · simp [BallP.time_to_hit, h2]
      · by_cases h3 : BallP.tthDisc a b < 0
        · simp [BallP.time_to_hit, h3]
        · have hge0 : 0 ≤ BallP.tthDvdr a b := by
            rcases h with h | h | h
            · exact h
            · exact absurd h h2
            · exact absurd h h3
          have hden : 0 ≤ BallP.tthDvdv a b :=
            add_nonneg (mul_self_nonneg _) (mul_self_nonneg _)
          have hnum : -(BallP.tthDvdr a b + Real.sqrt (BallP.tthDisc a b)) ≤ 0 := by
            have := Real.sqrt_nonneg (BallP.tthDisc a b)
            linarith
          have ht : BallP.tthT a b ≤ 0 := by
            unfold BallP.tthT
            exact div_nonpos_iff.mpr (Or.inr ⟨hnum, hden⟩)
          simp [BallP.time_to_hit, hgt, h2, h3, ht]
  · intro h1 h2 h3
    have hgt : ¬ BallP.tthDvdr a b > 0 := by linarith
    have h3n : ¬ BallP.tthDisc a b < 0 := by linarith
    rcases le_or_lt (BallP.tthT a b) 0 with ht | ht
    · have ht2 : ¬ BallP.tthT a b > 0 := by linarith
      simp [BallP.time_to_hit, hgt, h2, h3n, ht, ht2]
    · have ht2 : ¬ BallP.tthT a b ≤ 0 := by linarith
      simp [BallP.time_to_hit, hgt, h2, h3n, ht, ht2]

/-- Witness for C1: a diverging pair (`dvdr = 10 ≥ 0`) yields never. -/
theorem time_to_hit_characterization_witness :
    0 ≤ BallP.tthDvdr (BallP.init 1 0 0 0 0 200 200) (BallP.init 1 10 0 1 0 200 200) ∧
    BallP.time_to_hit (BallP.init 1 0 0 0 0 200 200) (BallP.init 1 10 0 1 0 200 200) = none := by
  have h : 0 ≤ BallP.tthDvdr (BallP.init 1 0 0 0 0 200 200) (BallP.init 1 10 0 1 0 200 200) := by
    norm_num [BallP.tthDvdr, BallP.init]
  exact ⟨h, (time_to_hit_characterization _ _).1 (Or.inl h)⟩

/- ----------------------------------------------------------------- -/
/- Claim C4. -/

/-- Claim C4, counterexample: at `x = 95`, radius 5, `vx = 10`, half-extent
100, the computed quotient is 0, which fails the `dt > 0` test, so the code
does not return 0. -/
theorem wall_time_at_contact_cex :
    BallP.time_to_hit_vertical_wall (BallP.init 5 95 0 10 0 100 100) ≠ some 0 := by
  have h : BallP.time_to_hit_vertical_wall (BallP.init 5 95 0 10 0 100 100) = none := by
    norm_num [BallP.time_to_hit_vertical_wall, BallP.init]
  simp [h]

/-- Claim C4, amended: at `x = 95`, radius 5, `vx = 10`, half-extent 100, the
wall time-to-hit returns never (`math.inf`), not 0. -/
theorem wall_time_at_contact :
    BallP.time_to_hit_vertical_wall (BallP.init 5 95 0 10 0 100 100) = none := by
  norm_num [BallP.time_to_hit_vertical_wall, BallP.init]

/- ----------------------------------------------------------------- -/
/- Claim C10. -/

/-- Claim C10, counterexample: with radius 300 on a canvas of half-extent 200,
the clamp lower bound overrides the upper one and the final `x` exceeds
`canvas_width - size`. -/
theorem move_clamp_cex :
    ¬ ((BallP.move (BallP.init 300 0 0 0 0 200 200) 0).x ≤
        (BallP.init 300 0 0 0 0 200 200).canvas_width -
          (BallP.init 300 0 0 0 0 200 200).size) := by
  norm_num [BallP.move, BallP.init]

/-- Claim C10, amended: provided the radius fits in the half-extents
(`r ≤ W` and `r ≤ H`), for every velocity and `dt ≥ 0` the clamped position
after `move(dt)` satisfies `-(W - r) ≤ x ≤ W - r` and
`-(H - r) ≤ y ≤ H - r`. -/
theorem move_stays_in_bounds (b : BallP) (dt : ℝ) (_hdt : 0 ≤ dt)
    (hW : b.size ≤ b.canvas_width) (hH : b.size ≤ b.canvas_height) :
    -(b.canvas_width - b.size) ≤ (BallP.move b dt).x ∧
    (BallP.move b dt).x ≤ b.canvas_width - b.size ∧
    -(b.canvas_height - b.size) ≤ (BallP.move b dt).y ∧
    (BallP.move b dt).y ≤ b.canvas_height - b.size := by
  unfold BallP.move
  refine ⟨?_, ?_, ?_, ?_⟩
  · have h := le_max_right (min (b.x + b.vx * dt) (b.canvas_width - b.size))
      (-b.canvas_width + b.size)
    simp only
    linarith
  · simp only
    exact max_le (min_le_right _ _) (by linarith)
  · have h := le_max_right (min (b.y + b.vy * dt) (b.canvas_height - b.size))
      (-b.canvas_height + b.size)
    simp only
    linarith
  · simp only
    exact max_le (min_le_right _ _) (by linarith)

/-- Witness for the amended C10 at a concrete ball and step. -/
theorem move_stays_in_bounds_witness :
    (0 : ℝ) ≤ 2 ∧
    (BallP.init 5 0 0 1 0 100 100).size ≤ (BallP.init 5 0 0 1 0 100 100).canvas_width ∧
    (-((BallP.init 5 0 0 1 0 100 100).canvas_width - (BallP.init 5 0 0 1 0 100 100).size) ≤
        (BallP.move (BallP.init 5 0 0 1 0 100 100) 2).x ∧
      (BallP.move (BallP.init 5 0 0 1 0 100 100) 2).x ≤
        (BallP.init 5 0 0 1 0 100 100).canvas_width - (BallP.init 5 0 0 1 0 100 100).size ∧
      -((BallP.init 5 0 0 1 0 100 100).canvas_height - (BallP.init 5 0 0 1 0 100 100).size) ≤
        (BallP.move (BallP.init 5 0 0 1 0 100 100) 2).y ∧
      (BallP.move (BallP.init 5 0 0 1 0 100 100) 2).y ≤
        (BallP.init 5 0 0 1 0 100 100).canvas_height - (BallP.init 5 0 0 1 0 100 100).size) := by
  refine ⟨by norm_num, by norm_num [BallP.init], ?_⟩
  exact move_stays_in_bounds (BallP.init 5 0 0 1 0 100 100) 2 (by norm_num)
    (by norm_num [BallP.init]) (by norm_num [BallP.init])

/- ----------------------------------------------------------------- -/
/- Claim C7. -/

/-- Claim C7: a ball past a rail gets its position clamped exactly to the rail
boundary and its normal velocity component scaled by the rail restitution with
reversed sign, the tangential component and the other coordinate unchanged; a
ball within bounds is left entirely unchanged.  Both rail axes are covered. -/
theorem rail_bounce_spec (b : BallS) (W H : ℝ) :
    ((b.x - BALL_RADIUS < -W →
        (BallS.bounce_off_horizontal_rail b W).x = -W + BALL_RADIUS ∧
        (BallS.bounce_off_horizontal_rail b W).vx = -BALL_RAIL_RESTITUTION * b.vx ∧
        (BallS.bounce_off_horizontal_rail b W).y = b.y ∧
        (BallS.bounce_off_horizontal_rail b W).vy = b.vy) ∧
      (¬ b.x - BALL_RADIUS < -W → b.x + BALL_RADIUS > W →
        (BallS.bounce_off_horizontal_rail b W).x = W - BALL_RADIUS ∧
        (BallS.bounce_off_horizontal_rail b W).vx = -BALL_RAIL_RESTITUTION * b.vx ∧
        (BallS.bounce_off_horizontal_rail b W).y = b.y ∧
        (BallS.bounce_off_horizontal_rail b W).vy = b.vy) ∧
      (¬ b.x - BALL_RADIUS < -W → ¬ b.x + BALL_RADIUS > W →
        BallS.bounce_off_horizontal_rail b W = b)) ∧
    ((b.y - BALL_RADIUS < -H →
        (BallS.bounce_off_vertical_rail b H).y = -H + BALL_RADIUS ∧
        (BallS.bounce_off_vertical_rail b H).vy = -BALL_RAIL_RESTITUTION * b.vy ∧
        (BallS.bounce_off_vertical_rail b H).x = b.x ∧
        (BallS.bounce_off_vertical_rail b H).vx = b.vx) ∧
      (¬ b.y - BALL_RADIUS < -H → b.y + BALL_RADIUS > H →
        (BallS.bounce_off_vertical_rail b H).y = H - BALL_RADIUS ∧
        (BallS.bounce_off_vertical_rail b H).vy = -BALL_RAIL_RESTITUTION * b.vy ∧
        (BallS.bounce_off_vertical_rail b H).x = b.x ∧
        (BallS.bounce_off_vertical_rail b H).vx = b.vx) ∧
      (¬ b.y - BALL_RADIUS < -H → ¬ b.y + BALL_RADIUS > H →
        BallS.bounce_off_vertical_rail b H = b)) := by
  refine ⟨⟨?_, ?_, ?_⟩, ?_, ?_, ?_⟩
  · intro h1
    unfold BallS.bounce_off_horizontal_rail
    rw [if_pos h1]
    exact ⟨rfl, rfl, rfl, rfl⟩
  · intro h1 h2
    unfold BallS.bounce_off_horizontal_rail
    rw [if_neg h1, if_pos h2]
    exact ⟨rfl, rfl, rfl, rfl⟩
  · intro h1 h2
    unfold BallS.bounce_off_horizontal_rail
    rw [if_neg h1, if_neg h2]
  · intro h1
    unfold BallS.bounce_off_vertical_rail
    rw [if_pos h1]
    exact ⟨rfl, rfl, rfl, rfl⟩
  · intro h1 h2
    unfold BallS.bounce_off_vertical_rail
    rw [if_neg h1, if_pos h2]
    exact ⟨rfl, rfl, rfl, rfl⟩
  · intro h1 h2
    unfold BallS.bounce_off_vertical_rail
    rw [if_neg h1, if_neg h2]

/-- Witness for C7: a ball past the right rail is clamped to it and its `vx`
is reversed and scaled by the rail restitution. -/
theorem rail_bounce_spec_witness :
    (¬ (⟨300, 0, 2, 3⟩ : BallS).x - BALL_RADIUS < -(225 : ℝ)) ∧
    ((⟨300, 0, 2, 3⟩ : BallS).x + BALL_RADIUS > (225 : ℝ)) ∧
    ((BallS.bounce_off_horizontal_rail ⟨300, 0, 2, 3⟩ 225).x = 225 - BALL_RADIUS ∧
      (BallS.bounce_off_horizontal_rail ⟨300, 0, 2, 3⟩ 225).vx =
        -BALL_RAIL_RESTITUTION * (⟨300, 0, 2, 3⟩ : BallS).vx ∧
      (BallS.bounce_off_horizontal_rail ⟨300, 0, 2, 3⟩ 225).y = (⟨300, 0, 2, 3⟩ : BallS).y ∧
      (BallS.bounce_off_horizontal_rail ⟨300, 0, 2, 3⟩ 225).vy = (⟨300, 0, 2, 3⟩ : BallS).vy) := by
  refine ⟨by norm_num [BALL_RADIUS], by norm_num [BALL_RADIUS], ?_⟩
  exact (rail_bounce_spec ⟨300, 0, 2, 3⟩ 225 225).1.2.1
    (by norm_num [BALL_RADIUS]) (by norm_num [BALL_RADIUS])

/- ----------------------------------------------------------------- -/
/- Claim C9. -/

/-- Claim C9: each collision-resolution operation of the draft ball increments
the collision counter `count` of every participating ball by exactly one, so
the counter strictly increases across any sequence of resolved collisions. -/
theorem collision_count_increments (a b : BallP) (p : Paddle) :
    (BallP.bounce_off a b).1.count = a.count + 1 ∧
    (BallP.bounce_off a b).2.count = b.count + 1 ∧
    (BallP.bounce_off_vertical_wall a).count = a.count + 1 ∧
    (BallP.bounce_off_horizontal_wall a).count = a.count + 1 ∧
    (BallP.bounce_off_paddle a p).count = a.count + 1 := by
  refine ⟨rfl, rfl, ?_, ?_, ?_⟩
  · simp only [BallP.bounce_off_vertical_wall]
    split
    · rfl
    · split <;> rfl
  · simp only [BallP.bounce_off_horizontal_wall]
    split
    · rfl
    · split <;> rfl
  · simp only [BallP.bounce_off_paddle]
    by_cases h1 : |a.x - p.location.1| * p.height > |a.y - p.location.2| * p.width
    · rw [if_pos h1]
      split <;> rfl
    · rw [if_neg h1]
      split <;> rfl

/- ----------------------------------------------------------------- -/
/- Claim C8. -/

/-- Claim C8: for the head-on pair A at (-10, 0), v = (5, 0), r = 1 and B at
(10, 0), v = (-5, 0), r = 1, `time_to_hit` returns exactly 1.8 = 9/5, and the
elastic `bounce_off` applied at the contact configuration (both balls advanced
by 9/5) fully exchanges the velocities. -/
theorem head_on_scenario :
    BallP.time_to_hit (BallP.init 1 (-10) 0 5 0 200 200)
        (BallP.init 1 10 0 (-5) 0 200 200) = some (9 / 5) ∧
    (BallP.bounce_off (BallP.init 1 (-10 + 5 * (9 / 5)) 0 5 0 200 200)
        (BallP.init 1 (10 + -5 * (9 / 5)) 0 (-5) 0 200 200)).1.vx = -5 ∧
    (BallP.bounce_off (BallP.init 1 (-10 + 5 * (9 / 5)) 0 5 0 200 200)
        (BallP.init 1 (10 + -5 * (9 / 5)) 0 (-5) 0 200 200)).1.vy = 0 ∧
    (BallP.bounce_off (BallP.init 1 (-10 + 5 * (9 / 5)) 0 5 0 200 200)
        (BallP.init 1 (10 + -5 * (9 / 5)) 0 (-5) 0 200 200)).2.vx = 5 ∧
    (BallP.bounce_off (BallP.init 1 (-10 + 5 * (9 / 5)) 0 5 0 200 200)
        (BallP.init 1 (10 + -5 * (9 / 5)) 0 (-5) 0 200 200)).2.vy = 0 := by
  constructor
  · have hdvdr : BallP.tthDvdr (BallP.init 1 (-10) 0 5 0 200 200)
        (BallP.init 1 10 0 (-5) 0 200 200) = -200 := by
      norm_num [BallP.tthDvdr, BallP.init]
    have hdvdv : BallP.tthDvdv (BallP.init 1 (-10) 0 5 0 200 200)
        (BallP.init 1 10 0 (-5) 0 200 200) = 100 := by
      norm_num [BallP.tthDvdv, BallP.init]
    have hdisc : BallP.tthDisc (BallP.init 1 (-10) 0 5 0 200 200)
        (BallP.init 1 10 0 (-5) 0 200 200) = 400 := by
      norm_num [BallP.tthDisc, BallP.tthDvdr, BallP.tthDvdv, BallP.tthDrdr,
        BallP.tthSigma, BallP.init]
    have ht : BallP.tthT (BallP.init 1 (-10) 0 5 0 200 200)
        (BallP.init 1 10 0 (-5) 0 200 200) = 9 / 5 := by
      unfold BallP.tthT
      rw [hdvdr, hdvdv, hdisc,
        sqrt_eval (by norm_num : (0 : ℝ) ≤ 20) (by norm_num : (20 : ℝ) ^ 2 = 400)]
      norm_num
    unfold BallP.time_to_hit
    rw [hdvdr, hdvdv, hdisc, ht]
    norm_num
  · refine ⟨?_, ?_, ?_, ?_⟩ <;> norm_num [BallP.bounce_off, BallP.init]

/- ----------------------------------------------------------------- -/
/- Claim C2. -/

/-- Claim C2: for balls at distinct positions that are approaching each other
(normal relative velocity at most 0), `bounce_off` leaves the total momentum
vector exactly unchanged. -/
theorem bounce_off_momentum (a b : BallS)
    (hpos : ¬ (b.x = a.x ∧ b.y = a.y))
    (hvn : BallS.bounce_vn a b ≤ 0) :
    BallS.mass a * (BallS.bounce_off a b).1.vx + BallS.mass b * (BallS.bounce_off a b).2.vx =
      BallS.mass a * a.vx + BallS.mass b * b.vx ∧
    BallS.mass a * (BallS.bounce_off a b).1.vy + BallS.mass b * (BallS.bounce_off a b).2.vy =
      BallS.mass a * a.vy + BallS.mass b * b.vy := by
  have hdist : BallS.distance a b ≠ 0 := by
    unfold BallS.distance
    rw [Real.sqrt_ne_zero']
    rcases not_and_or.mp hpos with h | h
    · have h2 : 0 < (b.x - a.x) ^ 2 := sq_pos_of_ne_zero (sub_ne_zero.mpr h)
      nlinarith [sq_nonneg (b.y - a.y)]
    · have h2 : 0 < (b.y - a.y) ^ 2 := sq_pos_of_ne_zero (sub_ne_zero.mpr h)
      nlinarith [sq_nonneg (b.x - a.x)]
  have key : ∀ (m1 m2 va vb J : ℝ), m1 ≠ 0 → m2 ≠ 0 →
      m1 * (va - J / m1) + m2 * (vb + J / m2) = m1 * va + m2 * vb := by
    intro m1 m2 va vb J hm1 hm2
    field_simp
    ring
  have hm1 : BallS.mass a ≠ 0 := by norm_num [BallS.mass, BALL_MASS]
  have hm2 : BallS.mass b ≠ 0 := by norm_num [BallS.mass, BALL_MASS]
  unfold BallS.bounce_off
  rw [if_neg hdist]
  unfold BallS.bounce_vn at hvn
  rw [if_neg (not_lt.mpr hvn)]
  dsimp only
  exact ⟨key _ _ _ _ _ hm1 hm2, key _ _ _ _ _ hm1 hm2⟩

/-- Witness for C2: a moving ball striking a resting one dead center. -/
theorem bounce_off_momentum_witness :
    (¬ ((⟨2, 0, 0, 0⟩ : BallS).x = (⟨0, 0, 1, 0⟩ : BallS).x ∧
        (⟨2, 0, 0, 0⟩ : BallS).y = (⟨0, 0, 1, 0⟩ : BallS).y)) ∧
    BallS.bounce_vn ⟨0, 0, 1, 0⟩ ⟨2, 0, 0, 0⟩ ≤ 0 ∧
    (BallS.mass (⟨0, 0, 1, 0⟩ : BallS) *
          (BallS.bounce_off ⟨0, 0, 1, 0⟩ ⟨2, 0, 0, 0⟩).1.vx +
        BallS.mass (⟨2, 0, 0, 0⟩ : BallS) *
          (BallS.bounce_off ⟨0, 0, 1, 0⟩ ⟨2, 0, 0, 0⟩).2.vx =
      BallS.mass (⟨0, 0, 1, 0⟩ : BallS) * (⟨0, 0, 1, 0⟩ : BallS).vx +
        BallS.mass (⟨2, 0, 0, 0⟩ : BallS) * (⟨2, 0, 0, 0⟩ : BallS).vx) := by
  have hd : BallS.distance ⟨0, 0, 1, 0⟩ ⟨2, 0, 0, 0⟩ = 2 := by
    unfold BallS.distance
    norm_num
    exact sqrt_eval (by norm_num) (by norm_num)
  have hpos : ¬ ((⟨2, 0, 0, 0⟩ : BallS).x = (⟨0, 0, 1, 0⟩ : BallS).x ∧
      (⟨2, 0, 0, 0⟩ : BallS).y = (⟨0, 0, 1, 0⟩ : BallS).y) := by norm_num
  have hvn : BallS.bounce_vn ⟨0, 0, 1, 0⟩ ⟨2, 0, 0, 0⟩ ≤ 0 := by
    unfold BallS.bounce_vn
    rw [hd]
    norm_num
  exact ⟨hpos, hvn, (bounce_off_momentum _ _ hpos hvn).1⟩

/- ----------------------------------------------------------------- -/
/- Claim C5. -/

/-- Claim C5: evaluation of the failing input.  Two balls at the same
position are closer than the radius sum, so the pass enters the collision
branch, and the normal computation `nx = dx / dist` divides by `dist = 0`,
raising `ZeroDivisionError` (modelled by `none`): `check_ball_collisions`
does raise on coincident balls. -/
theorem resolver_raises_on_coincident_balls :
    check_ball_collisions [⟨0, 0, 0, 0⟩, ⟨0, 0, 0, 0⟩] = none := by
  have hcp : collidePair ⟨0, 0, 0, 0⟩ ⟨0, 0, 0, 0⟩ = none := by
    norm_num [collidePair, BallS.size, BALL_RADIUS]
  have hpi : pairIndices 2 = [(0, 1)] := rfl
  simp [check_ball_collisions, hpi, runPairs, hcp]

/- ----------------------------------------------------------------- -/
/- Claim C6. -/

/-- Claim C6: for interpenetrating balls at distinct positions
(`0 < dist < rA + rB`), the overlap correction moves each ball by exactly half
the penetration depth, restores the center distance to exactly `rA + rB`, and
leaves the midpoint of the two centers unchanged. -/
theorem overlap_correction_spec (b1 b2 : BallS)
    (h0 : 0 < Real.sqrt ((b2.x - b1.x) ^ 2 + (b2.y - b1.y) ^ 2))
    (h1 : Real.sqrt ((b2.x - b1.x) ^ 2 + (b2.y - b1.y) ^ 2) <
      BallS.size b1 + BallS.size b2) :
    BallS.distance (overlapCorrection b1 b2).1 (overlapCorrection b1 b2).2 =
      BallS.size b1 + BallS.size b2 ∧
    (overlapCorrection b1 b2).1.x + (overlapCorrection b1 b2).2.x = b1.x + b2.x ∧
    (overlapCorrection b1 b2).1.y + (overlapCorrection b1 b2).2.y = b1.y + b2.y ∧
    Real.sqrt (((overlapCorrection b1 b2).1.x - b1.x) ^ 2 +
        ((overlapCorrection b1 b2).1.y - b1.y) ^ 2) =
      ((BallS.size b1 + BallS.size b2) -
        Real.sqrt ((b2.x - b1.x) ^ 2 + (b2.y - b1.y) ^ 2)) / 2 ∧
    Real.sqrt (((overlapCorrection b1 b2).2.x - b2.x) ^ 2 +
        ((overlapCorrection b1 b2).2.y - b2.y) ^ 2) =
      ((BallS.size b1 + BallS.size b2) -
        Real.sqrt ((b2.x - b1.x) ^ 2 + (b2.y - b1.y) ^ 2)) / 2 := by
  have hDsq : Real.sqrt ((b2.x - b1.x) ^ 2 + (b2.y - b1.y) ^ 2) ^ 2 =
      (b2.x - b1.x) ^ 2 + (b2.y - b1.y) ^ 2 := Real.sq_sqrt (by positivity)
  have hD : Real.sqrt ((b2.x - b1.x) ^ 2 + (b2.y - b1.y) ^ 2) ≠ 0 := ne_of_gt h0
  have hsv : (0 : ℝ) < BallS.size b1 + BallS.size b2 := lt_trans h0 h1
  have hov : (0 : ℝ) ≤ (BallS.size b1 + BallS.size b2) -
      Real.sqrt ((b2.x - b1.x) ^ 2 + (b2.y - b1.y) ^ 2) := by linarith
  have e2x : (overlapCorrection b1 b2).2.x - (overlapCorrection b1 b2).1.x =
      ((BallS.size b1 + BallS.size b2) /
        Real.sqrt ((b2.x - b1.x) ^ 2 + (b2.y - b1.y) ^ 2)) * (b2.x - b1.x) := by
    simp only [overlapCorrection]
    field_simp
    ring
  have e2y : (overlapCorrection b1 b2).2.y - (overlapCorrection b1 b2).1.y =
      ((BallS.size b1 + BallS.size b2) /
        Real.sqrt ((b2.x - b1.x) ^ 2 + (b2.y - b1.y) ^ 2)) * (b2.y - b1.y) := by
    simp only [overlapCorrection]
    field_simp
    ring
  have e1x : (overlapCorrection b1 b2).1.x - b1.x =
      (-(((BallS.size b1 + BallS.size b2) -
            Real.sqrt ((b2.x - b1.x) ^ 2 + (b2.y - b1.y) ^ 2)) /
          (2 * Real.sqrt ((b2.x - b1.x) ^ 2 + (b2.y - b1.y) ^ 2)))) * (b2.x - b1.x) := by
    simp only [overlapCorrection]
    field_simp
    ring
  have e1y : (overlapCorrection b1 b2).1.y - b1.y =
      (-(((BallS.size b1 + BallS.size b2) -
            Real.sqrt ((b2.x - b1.x) ^ 2 + (b2.y - b1.y) ^ 2)) /
          (2 * Real.sqrt ((b2.x - b1.x) ^ 2 + (b2.y - b1.y) ^ 2)))) * (b2.y - b1.y) := by
    simp only [overlapCorrection]
    field_simp
    ring
  have e3x : (overlapCorrection b1 b2).2.x - b2.x =
      (((BallS.size b1 + BallS.size b2) -
          Real.sqrt ((b2.x - b1.x) ^ 2 + (b2.y - b1.y) ^ 2)) /
        (2 * Real.sqrt ((b2.x - b1.x) ^ 2 + (b2.y - b1.y) ^ 2))) * (b2.x - b1.x) := by
    simp only [overlapCorrection]
    field_simp
    ring
  have e3y : (overlapCorrection b1 b2).2.y - b2.y =
      (((BallS.size b1 + BallS.size b2) -
          Real.sqrt ((b2.x - b1.x) ^ 2 + (b2.y - b1.y) ^ 2)) /
        (2 * Real.sqrt ((b2.x - b1.x) ^ 2 + (b2.y - b1.y) ^ 2))) * (b2.y - b1.y) := by
    simp only [overlapCorrection]
    field_simp
    ring
  have habs : |((BallS.size b1 + BallS.size b2) -
        Real.sqrt ((b2.x - b1.x) ^ 2 + (b2.y - b1.y) ^ 2)) /
      (2 * Real.sqrt ((b2.x - b1.x) ^ 2 + (b2.y - b1.y) ^ 2))| =
      ((BallS.size b1 + BallS.size b2) -
        Real.sqrt ((b2.x - b1.x) ^ 2 + (b2.y - b1.y) ^ 2)) /
      (2 * Real.sqrt ((b2.x - b1.x) ^ 2 + (b2.y - b1.y) ^ 2)) :=
    abs_of_nonneg (div_nonneg hov (by linarith))
  refine ⟨?_, ?_, ?_, ?_, ?_⟩
  · unfold BallS.distance
    rw [e2y, e2x, sqrt_scale, add_comm ((b2.y - b1.y) ^ 2) ((b2.x - b1.x) ^ 2),
      abs_of_pos (div_pos hsv h0), div_mul_cancel₀ _ hD]
  · simp only [overlapCorrection]
    ring
  · simp only [overlapCorrection]
    ring
  · rw [e1x, e1y, sqrt_scale, abs_neg, habs]
    field_simp
    ring
  · rw [e3x, e3y, sqrt_scale, habs]
    field_simp
    ring

/-- Witness for C6: two balls penetrating at distance 12 (radius sum 24). -/
theorem overlap_correction_spec_witness :
    (0 < Real.sqrt (((⟨12, 0, 0, 0⟩ : BallS).x - (⟨0, 0, 0, 0⟩ : BallS).x) ^ 2 +
        ((⟨12, 0, 0, 0⟩ : BallS).y - (⟨0, 0, 0, 0⟩ : BallS).y) ^ 2)) ∧
    (Real.sqrt (((⟨12, 0, 0, 0⟩ : BallS).x - (⟨0, 0, 0, 0⟩ : BallS).x) ^ 2 +
        ((⟨12, 0, 0, 0⟩ : BallS).y - (⟨0, 0, 0, 0⟩ : BallS).y) ^ 2) <
      BallS.size ⟨0, 0, 0, 0⟩ + BallS.size ⟨12, 0, 0, 0⟩) ∧
    BallS.distance (overlapCorrection ⟨0, 0, 0, 0⟩ ⟨12, 0, 0, 0⟩).1
        (overlapCorrection ⟨0, 0, 0, 0⟩ ⟨12, 0, 0, 0⟩).2 =
      BallS.size ⟨0, 0, 0, 0⟩ + BallS.size ⟨12, 0, 0, 0⟩ := by
  have hs : Real.sqrt (((⟨12, 0, 0, 0⟩ : BallS).x - (⟨0, 0, 0, 0⟩ : BallS).x) ^ 2 +
      ((⟨12, 0, 0, 0⟩ : BallS).y - (⟨0, 0, 0, 0⟩ : BallS).y) ^ 2) = 12 := by
    apply sqrt_eval <;> norm_num
  have h0 : 0 < Real.sqrt (((⟨12, 0, 0, 0⟩ : BallS).x - (⟨0, 0, 0, 0⟩ : BallS).x) ^ 2 +
      ((⟨12, 0, 0, 0⟩ : BallS).y - (⟨0, 0, 0, 0⟩ : BallS).y) ^ 2) := by
    rw [hs]
    norm_num
  have h1 : Real.sqrt (((⟨12, 0, 0, 0⟩ : BallS).x - (⟨0, 0, 0, 0⟩ : BallS).x) ^ 2 +
      ((⟨12, 0, 0, 0⟩ : BallS).y - (⟨0, 0, 0, 0⟩ : BallS).y) ^ 2) <
      BallS.size ⟨0, 0, 0, 0⟩ + BallS.size ⟨12, 0, 0, 0⟩ := by
    rw [hs]
    norm_num [BallS.size, BALL_RADIUS]
  exact ⟨h0, h1, (overlap_correction_spec _ _ h0 h1).1⟩

/- ----------------------------------------------------------------- -/
/- Claim C3. -/

/-- Claim C3, counterexample: at speed 1/20 = 0.05 and the simulation step
`dt = 1/60`, the Euler friction step overshoots: the velocity flips sign to
-73/500 = -0.146, whose magnitude exceeds both the old speed and the snap
threshold 0.1, so the step increases the speed, reverses the sign of `vx`,
and does not snap to zero. -/
theorem friction_step_overshoot_cex :
    0 < BallS.speed ⟨0, 0, 1 / 20, 0⟩ ∧
    BallS.speed (BallS.move ⟨0, 0, 1 / 20, 0⟩ (1 / 60)) > BallS.speed ⟨0, 0, 1 / 20, 0⟩ ∧
    0 < (⟨0, 0, 1 / 20, 0⟩ : BallS).vx ∧
    (BallS.move ⟨0, 0, 1 / 20, 0⟩ (1 / 60)).vx < 0 := by
  have hsp : BallS.speed ⟨0, 0, 1 / 20, 0⟩ = 1 / 20 := by
    unfold BallS.speed
    apply sqrt_eval <;> norm_num
  have hv : (BallS.move ⟨0, 0, 1 / 20, 0⟩ (1 / 60)).vx = -(73 / 500) ∧
      (BallS.move ⟨0, 0, 1 / 20, 0⟩ (1 / 60)).vy = 0 := by
    refine ⟨?_, ?_⟩ <;>
    · simp only [BallS.move]
      rw [hsp]
      rw [if_pos (by norm_num : (1 : ℝ) / 20 > 0)]
      rw [show ((1 : ℝ) / 20 +
            -((1 + SLIDING_FRICTION_COEF) * BallS.mass ⟨0, 0, 1 / 20, 0⟩ * GRAVITY /
                BallS.mass ⟨0, 0, 1 / 20, 0⟩) * (1 / 20 / (1 / 20)) * (1 / 60)) ^ 2 +
          ((0 : ℝ) +
            -((1 + SLIDING_FRICTION_COEF) * BallS.mass ⟨0, 0, 1 / 20, 0⟩ * GRAVITY /
                BallS.mass ⟨0, 0, 1 / 20, 0⟩) * (0 / (1 / 20)) * (1 / 60)) ^ 2 =
          ((73 : ℝ) / 500) ^ 2 from by
        norm_num [SLIDING_FRICTION_COEF, BallS.mass, BALL_MASS, GRAVITY]]
      rw [Real.sqrt_sq (by norm_num : (0 : ℝ) ≤ 73 / 500)]
      rw [if_neg (by norm_num [MIN_SPEED_PX_S] : ¬ ((73 : ℝ) / 500 < MIN_SPEED_PX_S))]
      norm_num [SLIDING_FRICTION_COEF, BallS.mass, BALL_MASS, GRAVITY]
  have hsp2 : BallS.speed (BallS.move ⟨0, 0, 1 / 20, 0⟩ (1 / 60)) = 73 / 500 := by
    unfold BallS.speed
    rw [hv.1, hv.2]
    apply sqrt_eval <;> norm_num
  refine ⟨by rw [hsp]; norm_num, by rw [hsp, hsp2]; norm_num, by norm_num, by rw [hv.1]; norm_num⟩

/-- Claim C3, amended: provided `0 ≤ dt` and the deceleration `(1 + mu) * g * dt`
does not exceed the current speed, one friction step never increases the speed
and never reverses the sign of a velocity component; and whenever the
post-deceleration speed falls below the minimum-speed threshold, both velocity
components are set to exactly zero. -/
theorem friction_step_monotone (b : BallS) (dt : ℝ)
    (hs : 0 < BallS.speed b) (hdt : 0 ≤ dt)
    (hslow : (1 + SLIDING_FRICTION_COEF) * GRAVITY * dt ≤ BallS.speed b) :
    BallS.speed (BallS.move b dt) ≤ BallS.speed b ∧
    (0 < b.vx → 0 ≤ (BallS.move b dt).vx) ∧
    (b.vx < 0 → (BallS.move b dt).vx ≤ 0) ∧
    (0 < b.vy → 0 ≤ (BallS.move b dt).vy) ∧
    (b.vy < 0 → (BallS.move b dt).vy ≤ 0) ∧
    (BallS.speed b - (1 + SLIDING_FRICTION_COEF) * GRAVITY * dt < MIN_SPEED_PX_S →
      (BallS.move b dt).vx = 0 ∧ (BallS.move b dt).vy = 0) := by
  have hsne : BallS.speed b ≠ 0 := ne_of_gt hs
  have hcdt : 0 ≤ (1 + SLIDING_FRICTION_COEF) * GRAVITY * dt := by
    have hcg : (0 : ℝ) ≤ (1 + SLIDING_FRICTION_COEF) * GRAVITY := by
      norm_num [SLIDING_FRICTION_COEF, GRAVITY]
    exact mul_nonneg hcg hdt
  have hK0 : 0 ≤ (BallS.speed b - (1 + SLIDING_FRICTION_COEF) * GRAVITY * dt) /
      BallS.speed b := div_nonneg (by linarith) hs.le
  have hvx1 : b.vx + -((1 + SLIDING_FRICTION_COEF) * BallS.mass b * GRAVITY /
        BallS.mass b) * (b.vx / BallS.speed b) * dt =
      ((BallS.speed b - (1 + SLIDING_FRICTION_COEF) * GRAVITY * dt) /
        BallS.speed b) * b.vx := by
    have hm : BallS.mass b ≠ 0 := by norm_num [BallS.mass, BALL_MASS]
    field_simp
    ring
  have hvy1 : b.vy + -((1 + SLIDING_FRICTION_COEF) * BallS.mass b * GRAVITY /
        BallS.mass b) * (b.vy / BallS.speed b) * dt =
      ((BallS.speed b - (1 + SLIDING_FRICTION_COEF) * GRAVITY * dt) /
        BallS.speed b) * b.vy := by
    have hm : BallS.mass b ≠ 0 := by norm_num [BallS.mass, BALL_MASS]
    field_simp
    ring
  have hinner : Real.sqrt ((((BallS.speed b - (1 + SLIDING_FRICTION_COEF) * GRAVITY * dt) /
          BallS.speed b) * b.vx) ^ 2 +
        (((BallS.speed b - (1 + SLIDING_FRICTION_COEF) * GRAVITY * dt) /
          BallS.speed b) * b.vy) ^ 2) =
      BallS.speed b - (1 + SLIDING_FRICTION_COEF) * GRAVITY * dt := by
    rw [sqrt_scale, abs_of_nonneg hK0,
      show Real.sqrt (b.vx ^ 2 + b.vy ^ 2) = BallS.speed b from rfl,
      div_mul_cancel₀ _ hsne]
  by_cases hsnap : BallS.speed b - (1 + SLIDING_FRICTION_COEF) * GRAVITY * dt <
      MIN_SPEED_PX_S
  · have hx : (BallS.move b dt).vx = 0 ∧ (BallS.move b dt).vy = 0 := by
      simp only [BallS.move]
      rw [if_pos hs, hvx1, hvy1, hinner, if_pos hsnap]
      exact ⟨rfl, rfl⟩
    have hz : BallS.speed (BallS.move b dt) = 0 := by
      unfold BallS.speed
      rw [hx.1, hx.2]
      norm_num
    refine ⟨by rw [hz]; exact hs.le, ?_, ?_, ?_, ?_, fun _ => hx⟩ <;>
      intro h <;> simp [hx.1, hx.2]
  · have hx : (BallS.move b dt).vx =
        ((BallS.speed b - (1 + SLIDING_FRICTION_COEF) * GRAVITY * dt) /
          BallS.speed b) * b.vx ∧
        (BallS.move b dt).vy =
        ((BallS.speed b - (1 + SLIDING_FRICTION_COEF) * GRAVITY * dt) /
          BallS.speed b) * b.vy := by
      simp only [BallS.move]
      rw [if_pos hs, hvx1, hvy1, hinner, if_neg hsnap]
      exact ⟨rfl, rfl⟩
    have hsp2 : BallS.speed (BallS.move b dt) =
        BallS.speed b - (1 + SLIDING_FRICTION_COEF) * GRAVITY * dt := by
      unfold BallS.speed
      rw [hx.1, hx.2]
      exact hinner
    refine ⟨by rw [hsp2]; linarith, ?_, ?_, ?_, ?_, fun h => absurd h hsnap⟩
    · intro h
      rw [hx.1]
      exact mul_nonneg hK0 h.le
    · intro h
      rw [hx.1]
      exact mul_nonpos_of_nonneg_of_nonpos hK0 h.le
    · intro h
      rw [hx.2]
      exact mul_nonneg hK0 h.le
    · intro h
      rw [hx.2]
      exact mul_nonpos_of_nonneg_of_nonpos hK0 h.le

/-- Witness for the amended C3 at a concrete ball of speed 5 and the
simulation step. -/
theorem friction_step_monotone_witness :
    0 < BallS.speed ⟨0, 0, 3, 4⟩ ∧
    (0 : ℝ) ≤ 1 / 60 ∧
    (1 + SLIDING_FRICTION_COEF) * GRAVITY * (1 / 60) ≤ BallS.speed ⟨0, 0, 3, 4⟩ ∧
    BallS.speed (BallS.move ⟨0, 0, 3, 4⟩ (1 / 60)) ≤ BallS.speed ⟨0, 0, 3, 4⟩ := by
  have hsp : BallS.speed ⟨0, 0, 3, 4⟩ = 5 := by
    unfold BallS.speed
    apply sqrt_eval <;> norm_num
  have h1 : 0 < BallS.speed ⟨0, 0, 3, 4⟩ := by rw [hsp]; norm_num
  have h2 : (1 + SLIDING_FRICTION_COEF) * GRAVITY * (1 / 60) ≤ BallS.speed ⟨0, 0, 3, 4⟩ := by
    rw [hsp]
    norm_num [SLIDING_FRICTION_COEF, GRAVITY]
  exact ⟨h1, by norm_num, h2,
    (friction_step_monotone ⟨0, 0, 3, 4⟩ (1 / 60) h1 (by norm_num) h2).1⟩
